import Mathlib

/-!
Verification development for the Object Group binary decoder of the
onenote.rs repository (src/fsshttpb/data_element/object_group.rs) and the
section assembler (src/onenote/parser/section.rs).

The decoder consumes a cursor over an in-memory byte buffer.  We embed the
byte stream as a `List Nat` consumed from the front; a parser is a function
from the remaining input to either an error or a value paired with the
remaining input.  The source aborts on malformed input; following the
specification's error taxonomy those aborts are embedded as explicit error
values (`unexpectedObjectType` for object-type assertion failures,
`invalidEnumValue` for the change-frequency abort, `unexpectedEndOfStream`
for exhausted input, `malformedHeader` for unrecognized tag patterns).

The repetition loops of the decoder terminate when an end-marker byte is
seen; in the embedding they carry a fuel argument (structural recursion) so
that all definitions compute by kernel reduction.  The top-level entry
point supplies fuel `input.length + 1`, which is always sufficient because
every loop iteration consumes at least one byte; fuel-monotonicity lemmas
below make results independent of the exact fuel once it suffices.
-/

namespace OneNote

/-- Error taxonomy of the decoder, as laid out in the specification. -/
inductive ParseError
  | malformedHeader
  | unexpectedObjectType
  | invalidEnumValue
  | unexpectedEndOfStream
  | truncatedArray
  deriving DecidableEq, Repr

/-- Modelled from the spec: the object-type tags of `object_types.rs`, which
is absent from the sources.  Only distinctness of the listed tag codes
matters to the decoder; the concrete numeric codes are not fixed by the
specification, so arbitrary small distinct values are used, with a
fall-through constructor for unrecognized codes. -/
inductive ObjectType
  | dataElement
  | objectGroupDeclaration
  | objectGroupMetadataBlock
  | objectGroupMetadata
  | objectGroupData
  | objectGroupObject
  | objectGroupDataBlob
  | objectGroupDataExcluded
  | objectGroupDataObject
  | objectGroupBlobReference
  | unknown (code : Nat)
  deriving DecidableEq, Repr

/-- Numeric tag code of an object type. -/
def ObjectType.code : ObjectType → Nat
  | .dataElement => 1
  | .objectGroupDeclaration => 2
  | .objectGroupMetadataBlock => 3
  | .objectGroupMetadata => 4
  | .objectGroupData => 5
  | .objectGroupObject => 6
  | .objectGroupDataBlob => 7
  | .objectGroupDataExcluded => 8
  | .objectGroupDataObject => 9
  | .objectGroupBlobReference => 10
  | .unknown n => n

/-- Object type recognized from a numeric tag code. -/
def ObjectType.ofCode (n : Nat) : ObjectType :=
  if n = 1 then .dataElement
  else if n = 2 then .objectGroupDeclaration
  else if n = 3 then .objectGroupMetadataBlock
  else if n = 4 then .objectGroupMetadata
  else if n = 5 then .objectGroupData
  else if n = 6 then .objectGroupObject
  else if n = 7 then .objectGroupDataBlob
  else if n = 8 then .objectGroupDataExcluded
  else if n = 9 then .objectGroupDataObject
  else if n = 10 then .objectGroupBlobReference
  else .unknown n

/-- Modelled from the spec: the decoded stream-object header of
`stream_object.rs`, which is absent from the sources: an object type plus a
compound flag. -/
structure ObjectHeader where
  objectType : ObjectType
  compound : Bool
  deriving DecidableEq, Repr

/-- Modelled from the spec: an extended GUID (`exguid.rs` is absent from
the sources): a 128-bit identifier (kept as its 16 raw bytes) plus a 32-bit
discriminator. -/
structure ExGuid where
  guid : List Nat
  value : Nat
  deriving DecidableEq, Repr

/-- Modelled from the spec: a cell identifier (`cell_id.rs` is absent from
the sources): a pair of extended GUIDs. -/
structure CellId where
  id : ExGuid
  extra : ExGuid
  deriving DecidableEq, Repr

/-- Change-frequency classification (object_group.rs lines 58-65). -/
inductive ObjectChangeFrequency
  | Unknown
  | Frequent
  | Infrequent
  | Independent
  | Custom
  deriving DecidableEq, Repr

/-- Numeric discriminant of a change frequency (the Rust enum reprs). -/
def ObjectChangeFrequency.toNat : ObjectChangeFrequency → Nat
  | .Unknown => 0
  | .Frequent => 1
  | .Infrequent => 2
  | .Independent => 3
  | .Custom => 4

/-- Change frequency decoding (object_group.rs lines 67-80); the source
panics on an unrecognized value, which the specification's taxonomy maps to
`invalidEnumValue`. -/
def ObjectChangeFrequency.parse (value : Nat) : Except ParseError ObjectChangeFrequency :=
  if value = ObjectChangeFrequency.Unknown.toNat then .ok .Unknown
  else if value = ObjectChangeFrequency.Frequent.toNat then .ok .Frequent
  else if value = ObjectChangeFrequency.Infrequent.toNat then .ok .Infrequent
  else if value = ObjectChangeFrequency.Independent.toNat then .ok .Independent
  else if value = ObjectChangeFrequency.Custom.toNat then .ok .Custom
  else .error .invalidEnumValue

/-- Declaration records (object_group.rs lines 19-35). -/
inductive ObjectGroupDeclaration
  | Object (object_id : ExGuid) (partition_id : Nat) (data_size : Nat)
      (object_reference_count : Nat) (cell_reference_count : Nat)
  | Blob (object_id : ExGuid) (blob_id : ExGuid) (partition_id : Nat)
      (object_reference_count : Nat) (cell_reference_count : Nat)
  deriving DecidableEq, Repr

/-- Metadata record (object_group.rs lines 53-56). -/
structure ObjectGroupMetadata where
  change_frequency : ObjectChangeFrequency
  deriving DecidableEq, Repr

/-- Data records (object_group.rs lines 82-98). -/
inductive ObjectGroupData
  | Object (group : List ExGuid) (cells : List CellId) (data : List Nat)
  | ObjectExcluded (group : List ExGuid) (cells : List CellId) (size : Nat)
  | BlobReference (objects : List ExGuid) (cells : List CellId) (blob : ExGuid)
  deriving DecidableEq, Repr

/-- Top-level decoded value (object_group.rs lines 12-17). -/
structure ObjectGroup where
  declarations : List ObjectGroupDeclaration
  metadata : List ObjectGroupMetadata
  objects : List ObjectGroupData
  deriving DecidableEq, Repr

/-- The caller's outer variant container; only the Object Group variant is
relevant here (the remaining variants of `value.rs` are absent from the
sources and unused by the decoder under study). -/
inductive DataElementValue
  | ObjectGroup (group : OneNote.ObjectGroup)
  deriving DecidableEq, Repr

/-! ## The parsing monad -/

/-- A parser over a byte stream: consumes bytes from the front of a list. -/
abbrev M (α : Type) : Type := List Nat → Except ParseError (α × List Nat)

/-- Parser returning a value without consuming input. -/
def M.pure {α : Type} (a : α) : M α := fun s => .ok (a, s)

/-- Parser failing with a fixed error. -/
def M.fail {α : Type} (e : ParseError) : M α := fun _ => .error e

/-- Sequential composition of parsers. -/
def M.bind {α β : Type} (p : M α) (f : α → M β) : M β := fun s =>
  match p s with
  | .error e => .error e
  | .ok (a, r) => f a r

/-- Lifting a pure fallible computation into the parser. -/
def M.ofExcept {α : Type} : Except ParseError α → M α
  | .ok a => M.pure a
  | .error e => M.fail e

/-- Reading a single byte; fails when the stream is exhausted. -/
def M.readByte : M Nat := fun s =>
  match s with
  | [] => .error .unexpectedEndOfStream
  | b :: rest => .ok (b, rest)

/-- Reading a fixed number of bytes. -/
def M.readBytes : Nat → M (List Nat)
  | 0 => M.pure []
  | n + 1 =>
    M.bind M.readByte fun b =>
    M.bind (M.readBytes n) fun bs =>
    M.pure (b :: bs)

/-- Running a parser a fixed number of times, collecting results in order. -/
def M.count {α : Type} : Nat → M α → M (List α)
  | 0, _ => M.pure []
  | n + 1, p =>
    M.bind p fun a =>
    M.bind (M.count n p) fun xs =>
    M.pure (a :: xs)

/-- Little-endian value of a byte list. -/
def leValue : List Nat → Nat
  | [] => 0
  | b :: rest => b % 256 + 256 * leValue rest

/-! ## Codecs (spec-modelled: their source files are not in the sources) -/

/-- End-marker byte for a list enclosed by the given object type: the
reserved end tag (low bits) plus the enclosing-type field. -/
def ObjectType.endByte (t : ObjectType) : Nat := t.code % 64 * 4 + 3

/-- Modelled from the spec: the compact one-byte stream-object header of
`stream_object.rs` (absent from the sources): low two bits are the form tag
(0 plain, 1 compound, 3 end marker), upper six bits the object-type code;
an unrecognized form tag is `malformedHeader`. -/
def ObjectHeader.parse : M ObjectHeader :=
  M.bind M.readByte fun b =>
  if b % 4 = 0 then M.pure ⟨ObjectType.ofCode (b / 4 % 64), false⟩
  else if b % 4 = 1 then M.pure ⟨ObjectType.ofCode (b / 4 % 64), true⟩
  else M.fail .malformedHeader

/-- Modelled from the spec: the wide four-byte header of `stream_object.rs`
(absent from the sources), used only for metadata entries: same semantic
fields with a wider type-tag range (form tag 2, then a compound bit, then
the type code). -/
def ObjectHeader.parse32 : M ObjectHeader :=
  M.bind (M.readBytes 4) fun bs =>
  if leValue bs % 4 = 2 then
    M.pure ⟨ObjectType.ofCode (leValue bs / 8 % 16384), leValue bs / 4 % 2 = 1⟩
  else M.fail .malformedHeader

/-- Modelled from the spec: the non-destructive conditional consume of an
end marker (`try_parse_end_8` of `stream_object.rs`, absent from the
sources): consumes the marker and reports a match only when the next byte
is exactly the end marker of the expected enclosing type; otherwise the
cursor is left exactly where it was. -/
def ObjectHeader.tryParseEnd8 (t : ObjectType) (s : List Nat) : Bool × List Nat :=
  match s with
  | [] => (false, [])
  | b :: rest => if b = t.endByte then (true, rest) else (false, b :: rest)

/-- Modelled from the spec: unconditional end-marker read (`parse_end_8` of
`stream_object.rs`, absent from the sources): reads one byte that must
carry the end form tag and returns the enclosing object type. -/
def ObjectHeader.parseEnd8 : M ObjectType :=
  M.bind M.readByte fun b =>
  if b % 4 = 3 then M.pure (ObjectType.ofCode (b / 4 % 64))
  else M.fail .malformedHeader

/-- Modelled from the spec: the compact unsigned 64-bit integer codec of
`compact_u64.rs` (absent from the sources): the first byte's low-order tag
bits select the width (inline value or 1, 2, 4 or 8 trailing little-endian
bytes); with the inline encoding the remaining bits of the tag byte are the
value; an unrecognized tag pattern is `malformedHeader`. -/
def CompactU64.parse : M Nat :=
  M.bind M.readByte fun b =>
  if b % 8 = 0 then M.pure (b / 8 % 32)
  else if b % 8 = 1 then M.bind (M.readBytes 1) fun bs => M.pure (leValue bs)
  else if b % 8 = 2 then M.bind (M.readBytes 2) fun bs => M.pure (leValue bs)
  else if b % 8 = 3 then M.bind (M.readBytes 4) fun bs => M.pure (leValue bs)
  else if b % 8 = 4 then M.bind (M.readBytes 8) fun bs => M.pure (leValue bs)
  else M.fail .malformedHeader

/-- Modelled from the spec: the extended-GUID codec of `exguid.rs` (absent
from the sources): 16 identifier bytes followed by a 32-bit little-endian
discriminator. -/
def ExGuid.parse : M ExGuid :=
  M.bind (M.readBytes 16) fun guid =>
  M.bind (M.readBytes 4) fun v =>
  M.pure ⟨guid, leValue v⟩

/-- Modelled from the spec: one entry of an extended-GUID array: a
per-entry flag byte selects either a full entry or, reusing the previous
entry's 128-bit part, only the discriminator; a compressed first entry
(no previous 128-bit part) is `malformedHeader`. -/
def ExGuid.parseEntry (prev : Option (List Nat)) : M ExGuid :=
  M.bind M.readByte fun flag =>
  if flag % 2 = 0 then ExGuid.parse
  else
    match prev with
    | some guid => M.bind (M.readBytes 4) fun v => M.pure ⟨guid, leValue v⟩
    | none => M.fail .malformedHeader

/-- Modelled from the spec: the entries of an extended-GUID array, threading
the previous entry's 128-bit part for the compression scheme. -/
def ExGuid.parseEntries : Nat → Option (List Nat) → M (List ExGuid)
  | 0, _ => M.pure []
  | n + 1, prev =>
    M.bind (ExGuid.parseEntry prev) fun g =>
    M.bind (ExGuid.parseEntries n (some g.guid)) fun gs =>
    M.pure (g :: gs)

/-- Modelled from the spec: an extended-GUID array: a compact-integer count
followed by that many entries. -/
def ExGuid.parseArray : M (List ExGuid) :=
  M.bind CompactU64.parse fun n =>
  ExGuid.parseEntries n none

/-- Modelled from the spec: the cell-identifier codec of `cell_id.rs`
(absent from the sources): two consecutive extended GUIDs. -/
def CellId.parse : M CellId :=
  M.bind ExGuid.parse fun a =>
  M.bind ExGuid.parse fun b =>
  M.pure ⟨a, b⟩

/-- Modelled from the spec: a cell-identifier array: a compact-integer
count followed by that many cell identifiers (no cross-entry compression at
this level). -/
def CellId.parseArray : M (List CellId) :=
  M.bind CompactU64.parse fun n =>
  M.count n CellId.parse

/-- Modelled from the spec: the length-prefixed blob codec of
`binary_item.rs` (absent from the sources): a compact-integer count
followed by that many raw bytes. -/
def BinaryItem.parse : M (List Nat) :=
  M.bind CompactU64.parse fun n =>
  M.readBytes n

/-! ## The orchestration core (translated from object_group.rs) -/

/-- The repeat-until-end-marker loop shape shared by the three repetition
loops of the decoder (object_group.rs lines 175-214, 222-235 and 243-277):
attempt the non-destructive end-marker consume for the enclosing type; on a
match stop, otherwise run the loop body once and continue, collecting
results in stream order.  Fuel makes the recursion structural; fuel
exhaustion reports end of stream (with the fuel supplied by the entry
point it is unreachable, every iteration consuming at least one byte). -/
def M.repeatUntilEnd {α : Type} (t : ObjectType) (body : M α) : Nat → M (List α)
  | 0 => M.fail .unexpectedEndOfStream
  | fuel + 1 => fun s =>
    match ObjectHeader.tryParseEnd8 t s with
    | (true, r) => .ok ([], r)
    | (false, _) =>
      M.bind body (fun a =>
        M.bind (M.repeatUntilEnd t body fuel) fun xs =>
        M.pure (a :: xs)) s

/-- One iteration body of the declarations loop (object_group.rs lines
180-213): one header, then for a declaration-object header an extended GUID
and four compact integers, for a declaration-blob header two extended GUIDs
and three compact integers; any other header type aborts with
`unexpectedObjectType`. -/
def parseDeclaration : M ObjectGroupDeclaration :=
  M.bind ObjectHeader.parse fun header =>
  match header.objectType with
  | .objectGroupObject =>
    M.bind ExGuid.parse fun object_id =>
    M.bind CompactU64.parse fun partition_id =>
    M.bind CompactU64.parse fun data_size =>
    M.bind CompactU64.parse fun object_reference_count =>
    M.bind CompactU64.parse fun cell_reference_count =>
    M.pure (ObjectGroupDeclaration.Object object_id partition_id data_size
      object_reference_count cell_reference_count)
  | .objectGroupDataBlob =>
    M.bind ExGuid.parse fun object_id =>
    M.bind ExGuid.parse fun blob_id =>
    M.bind CompactU64.parse fun partition_id =>
    M.bind CompactU64.parse fun object_reference_count =>
    M.bind CompactU64.parse fun cell_reference_count =>
    M.pure (ObjectGroupDeclaration.Blob object_id blob_id partition_id
      object_reference_count cell_reference_count)
  | _ => M.fail .unexpectedObjectType

/-- The declarations loop (object_group.rs lines 175-214): repeat until the
declarations end marker, collecting declarations in stream order.  Fuel
makes the recursion structural; fuel exhaustion reports end of stream. -/
def parseDeclsLoop (fuel : Nat) : M (List ObjectGroupDeclaration) :=
  M.repeatUntilEnd ObjectType.objectGroupDeclaration parseDeclaration fuel

/-- Declaration-block parser (object_group.rs lines 166-217): a header that
must declare the declarations block, then the declarations loop. -/
def parseObjectGroupDeclarations (fuel : Nat) : M (List ObjectGroupDeclaration) :=
  M.bind ObjectHeader.parse fun header =>
  if header.objectType = ObjectType.objectGroupDeclaration then parseDeclsLoop fuel
  else M.fail .unexpectedObjectType

/-- One iteration body of the metadata loop (object_group.rs lines
228-234): a wide-form header that must declare a metadata entry, then a
compact integer mapped to a change frequency. -/
def parseMetadataEntry : M ObjectGroupMetadata :=
  M.bind ObjectHeader.parse32 fun header =>
  if header.objectType = ObjectType.objectGroupMetadata then
    M.bind CompactU64.parse fun frequency =>
    M.bind (M.ofExcept (ObjectChangeFrequency.parse frequency)) fun cf =>
    M.pure ⟨cf⟩
  else M.fail .unexpectedObjectType

/-- The metadata loop (object_group.rs lines 219-238): repeat until the
metadata-block end marker, collecting entries in stream order. -/
def parseMetadataLoop (fuel : Nat) : M (List ObjectGroupMetadata) :=
  M.repeatUntilEnd ObjectType.objectGroupMetadataBlock parseMetadataEntry fuel

/-- One iteration body of the data loop (object_group.rs lines 248-276):
one header; each recognized variant reads an extended-GUID array and a
cell-identifier array, then its specific tail (compact-integer size,
length-prefixed blob, or one extended GUID); any other header type aborts
with `unexpectedObjectType`. -/
def parseDataRecord : M ObjectGroupData :=
  M.bind ObjectHeader.parse fun header =>
  match header.objectType with
  | .objectGroupDataExcluded =>
    M.bind ExGuid.parseArray fun group =>
    M.bind CellId.parseArray fun cells =>
    M.bind CompactU64.parse fun size =>
    M.pure (ObjectGroupData.ObjectExcluded group cells size)
  | .objectGroupDataObject =>
    M.bind ExGuid.parseArray fun group =>
    M.bind CellId.parseArray fun cells =>
    M.bind BinaryItem.parse fun data =>
    M.pure (ObjectGroupData.Object group cells data)
  | .objectGroupBlobReference =>
    M.bind ExGuid.parseArray fun references =>
    M.bind CellId.parseArray fun cells =>
    M.bind ExGuid.parse fun blob =>
    M.pure (ObjectGroupData.BlobReference references cells blob)
  | _ => M.fail .unexpectedObjectType

/-- The data loop (object_group.rs lines 240-280): repeat until the
data-block end marker, collecting records in stream order. -/
def parseDataLoop (fuel : Nat) : M (List ObjectGroupData) :=
  M.repeatUntilEnd ObjectType.objectGroupData parseDataRecord fuel

/-- The tail of the entry point (object_group.rs lines 155-163): the data
loop, then a final end marker whose enclosing type must be the outer
data-element envelope (`unexpectedObjectType` otherwise); the assembled
object group is returned. -/
def parseGroupTail (fuel : Nat) (declarations : List ObjectGroupDeclaration)
    (metadata : List ObjectGroupMetadata) : M DataElementValue :=
  M.bind (parseDataLoop fuel) fun objects =>
  M.bind ObjectHeader.parseEnd8 fun endType =>
  if endType = ObjectType.dataElement then
    M.pure (DataElementValue.ObjectGroup ⟨declarations, metadata, objects⟩)
  else M.fail .unexpectedObjectType

/-- The entry point (object_group.rs lines 138-164): the declarations
block, then one header that either declares the metadata block (metadata
loop, then a header that must declare the data block) or already declares
the data block (no metadata, no extra header consumed); any other header
type aborts with `unexpectedObjectType`.  Decoding then continues with the
tail above. -/
def parseObjectGroup (fuel : Nat) : M DataElementValue :=
  M.bind (parseObjectGroupDeclarations fuel) fun declarations =>
  M.bind ObjectHeader.parse fun header =>
  M.bind
    (match header.objectType with
     | .objectGroupMetadataBlock =>
       M.bind (parseMetadataLoop fuel) fun metadata =>
       M.bind ObjectHeader.parse fun header2 =>
       if header2.objectType = ObjectType.objectGroupData then M.pure metadata
       else M.fail .unexpectedObjectType
     | .objectGroupData => M.pure []
     | _ => M.fail .unexpectedObjectType) fun metadata =>
  parseGroupTail fuel declarations metadata

/-- Running the decoder on a byte buffer, with sufficient fuel for its
length (every loop iteration consumes at least one byte). -/
def parseObjectGroupBytes (s : List Nat) : Except ParseError (DataElementValue × List Nat) :=
  parseObjectGroup (s.length + 1) s

/-- Whether the decoder succeeds on a byte buffer. -/
def decodeOk (s : List Nat) : Bool :=
  match parseObjectGroupBytes s with
  | .ok _ => true
  | .error _ => false

/-! ## Debug formatting (object_group.rs lines 100-135) -/

/-- Result of a `debug_struct` rendering: the struct label and the rendered
fields in order. -/
structure DebugStruct where
  name : String
  fields : List (String × String)
  deriving DecidableEq, Repr

/-- Size wrapper used by the Debug implementation (object_group.rs line
100). -/
structure DebugSize where
  size : Nat
  deriving DecidableEq, Repr

/-- Rendering of `DebugSize` (object_group.rs lines 131-135): the byte
count followed by the word bytes, never the bytes themselves. -/
def DebugSize.fmt (d : DebugSize) : String := toString d.size ++ " bytes"

/-- Rendering of a list of rendered elements, bracketed and
comma-separated. -/
def fmtList {α : Type} (f : α → String) (xs : List α) : String :=
  "[" ++ String.intercalate ", " (xs.map f) ++ "]"

/-- Modelled from the spec: the derived Debug rendering of an extended GUID
(`exguid.rs` is absent from the sources); the exact shape is irrelevant to
the Debug claims, which concern only struct labels and the payload field. -/
def ExGuid.fmtDebug (g : ExGuid) : String :=
  "ExGuid(" ++ fmtList toString g.guid ++ ", " ++ toString g.value ++ ")"

/-- Modelled from the spec: the derived Debug rendering of a cell
identifier (`cell_id.rs` is absent from the sources). -/
def CellId.fmtDebug (c : CellId) : String :=
  "CellId(" ++ c.id.fmtDebug ++ ", " ++ c.extra.fmtDebug ++ ")"

/-- Hand-written Debug implementation for data records (object_group.rs
lines 102-129), rendered as a struct label plus named fields. -/
def ObjectGroupData.fmtDebug : ObjectGroupData → DebugStruct
  | .Object group cells data =>
    ⟨"Object",
      [("group", fmtList ExGuid.fmtDebug group),
       ("cells", fmtList CellId.fmtDebug cells),
       ("data", DebugSize.fmt ⟨data.length⟩)]⟩
  | .ObjectExcluded group cells size =>
    ⟨"ObjectExcluded",
      [("group", fmtList ExGuid.fmtDebug group),
       ("cells", fmtList CellId.fmtDebug cells),
       ("size", toString size)]⟩
  | .BlobReference objects cells blob =>
    ⟨"ObjectExcluded",
      [("objects", fmtList ExGuid.fmtDebug objects),
       ("cells", fmtList CellId.fmtDebug cells),
       ("blob", blob.fmtDebug)]⟩

/-! ## Section assembly (translated from section.rs) -/

/-- Modelled from the spec: an object held by the external object store
(the onestore object type is absent from the sources); the store only needs
to hand back an object's payload bytes by identifier. -/
structure StoreObject where
  data : List Nat
  deriving DecidableEq, Repr

/-- Modelled from the spec: the addressable object space consumed by
section parsing (`object_space.rs` is absent from the sources): optional
content and metadata roots plus a store keyed by object identifier. -/
structure ObjectSpace where
  content_root : Option ExGuid
  metadata_root : Option ExGuid
  objects : List (ExGuid × StoreObject)
  deriving DecidableEq, Repr

/-- Lookup of an object by identifier in the object space. -/
def ObjectSpace.get_object (space : ObjectSpace) (id : ExGuid) : Option StoreObject :=
  (space.objects.find? fun p => decide (p.1 = id)).map Prod.snd

/-- Modelled from the spec: the parsed store passed through to page-series
parsing (`onestore` is absent from the sources); opaque to section
assembly. -/
structure OneStore where
  object_spaces : List (ExGuid × ObjectSpace)

/-- Modelled from the spec: the decoded section content node
(`section_node::Data` is absent from the sources); section assembly only
reads its list of page-series identifiers. -/
structure SectionNodeData where
  page_series_ids : List ExGuid

/-- Modelled from the spec: the decoded section metadata node
(`section_metadata_node::Data` is absent from the sources); section
assembly only reads its optional display name. -/
structure SectionMetadataData where
  display_name : Option String

/-- Modelled from the spec: the property-set decoders and the page-series
parser called by section assembly (`section_node::parse`,
`section_metadata_node::parse` and `parse_page_series` are absent from the
sources); they are kept as parameters, with the page-series result type
abstract. -/
structure SectionEnv (P : Type) where
  sectionNodeParse : StoreObject → SectionNodeData
  sectionMetadataParse : StoreObject → SectionMetadataData
  parsePageSeries : ExGuid → ObjectSpace → OneStore → P

/-- The assembled section (section.rs lines 6-10), abstract in the
page-series type. -/
structure Section (P : Type) where
  display_name : Option String
  page_series : List P

/-- Content-node fetch (section.rs lines 30-37); the source aborts when the
content root or its object is missing, embedded as `none`. -/
def parse_content {P : Type} (env : SectionEnv P) (space : ObjectSpace) :
    Option SectionNodeData :=
  match space.content_root with
  | none => none
  | some content_root_id =>
    match space.get_object content_root_id with
    | none => none
    | some content_object => some (env.sectionNodeParse content_object)

/-- Metadata-node fetch (section.rs lines 39-46); the source aborts when
the metadata root or its object is missing, embedded as `none`. -/
def parse_metadata {P : Type} (env : SectionEnv P) (space : ObjectSpace) :
    Option SectionMetadataData :=
  match space.metadata_root with
  | none => none
  | some metadata_root_id =>
    match space.get_object metadata_root_id with
    | none => none
    | some metadata_object => some (env.sectionMetadataParse metadata_object)

/-- Section assembly (section.rs lines 12-28): fetch metadata and content
nodes, copy the display name, and parse one page series per identifier
listed by the content node, in order. -/
def parse_section {P : Type} (env : SectionEnv P) (space : ObjectSpace)
    (store : OneStore) : Option (Section P) :=
  match parse_metadata env space with
  | none => none
  | some metadata =>
    match parse_content env space with
    | none => none
    | some content =>
      some
        ⟨metadata.display_name,
         content.page_series_ids.map fun page_series_id =>
           env.parsePageSeries page_series_id space store⟩

/-! ## Concrete byte buffers used by witnesses and counterexamples -/

/-- A well-formed group carrying one metadata entry and no declarations:
declarations header, declarations end, metadata-block header, one wide
metadata-entry header, compact integer 1 (frequent), metadata end, data
header, data end, outer end. -/
def c1Input : List Nat := [8, 11, 12, 34, 0, 0, 0, 8, 15, 20, 23, 7]

/-- The specification's concrete scenario: one object declaration (16-byte
identifier 01 00 .. 00, discriminator 1, partition 0, size 4, no
references) followed by one data object with empty dependency and cell
arrays and the four payload bytes AA BB CC DD. -/
def sampleInput : List Nat :=
  [8, 24, 1, 0, 0, 0, 0, 0, 0, 0, 0, 0, 0, 0, 0, 0, 0, 0, 1, 0, 0, 0,
   0, 32, 0, 0, 11, 20, 36, 0, 0, 32, 170, 187, 204, 221, 23, 7]

/-- A fixed identifier used by the concrete section-parsing scenario. -/
def c9Guid : ExGuid := ⟨List.replicate 16 0, 0⟩

/-- A concrete store object for the section-parsing scenario. -/
def c9Obj : StoreObject := ⟨[1, 2]⟩

/-- A concrete object space whose content and metadata roots both resolve. -/
def c9Space : ObjectSpace := ⟨some c9Guid, some c9Guid, [(c9Guid, c9Obj)]⟩

/-- A concrete store for the section-parsing scenario. -/
def c9Store : OneStore := ⟨[]⟩

/-- A concrete environment for the section-parsing scenario: the content
node lists one page series, the metadata node carries a display name, and
page-series parsing returns a numeric token. -/
def c9Env : SectionEnv Nat :=
  ⟨fun _ => ⟨[c9Guid]⟩, fun _ => ⟨some "Notes"⟩, fun _ _ _ => 7⟩

/-! ## The prefix-stability predicate -/

/-- A parser is prefix-stable when every success depends only on the bytes
it consumed: the consumed bytes are a prefix of the input, and running the
parser on those bytes followed by anything succeeds identically. -/
def PStable {α : Type} (p : M α) : Prop :=
  ∀ s a r, p s = .ok (a, r) → ∃ c, s = c ++ r ∧ ∀ t, p (c ++ t) = .ok (a, t)

end OneNote

namespace OneNote

/-! ## Helper lemmas: sequencing -/

theorem M.bind_step {α β : Type} {p : M α} {f : α → M β} {s : List Nat} {a : α}
    {r : List Nat} (h : p s = .ok (a, r)) : M.bind p f s = f a r := by
  unfold M.bind
  rw [h]

theorem M.bind_eq_error {α β : Type} {p : M α} {f : α → M β} {s : List Nat}
    {e : ParseError} (h : p s = .error e) : M.bind p f s = .error e := by
  unfold M.bind
  rw [h]

theorem M.bind_eq_ok {α β : Type} {p : M α} {f : α → M β} {s : List Nat} {b : β}
    {r : List Nat} (h : M.bind p f s = .ok (b, r)) :
    ∃ a r1, p s = .ok (a, r1) ∧ f a r1 = .ok (b, r) := by
  unfold M.bind at h
  cases hps : p s with
  | error e => rw [hps] at h; simp at h
  | ok ar => obtain ⟨a, r1⟩ := ar; rw [hps] at h; exact ⟨a, r1, rfl, h⟩

theorem M.bind_ok_intro {α β : Type} {p : M α} {f : α → M β} {s : List Nat} {a : α}
    {r1 : List Nat} {b : β} {r : List Nat}
    (h1 : p s = .ok (a, r1)) (h2 : f a r1 = .ok (b, r)) : M.bind p f s = .ok (b, r) := by
  rw [M.bind_step h1]
  exact h2

theorem M.bind_error_intro {α β : Type} {p : M α} {f : α → M β} {s : List Nat} {a : α}
    {r1 : List Nat} {e : ParseError}
    (h1 : p s = .ok (a, r1)) (h2 : f a r1 = .error e) : M.bind p f s = .error e := by
  rw [M.bind_step h1]
  exact h2

/-! ## Helper lemmas: prefix stability of the codecs -/

theorem pstable_pure {α : Type} (a : α) : PStable (M.pure a) := by
  intro s b r h
  have h1 : a = b ∧ s = r := by simpa [M.pure] using h
  obtain ⟨rfl, rfl⟩ := h1
  exact ⟨[], rfl, fun t => rfl⟩

theorem pstable_fail {α : Type} (e : ParseError) : PStable (M.fail e : M α) := by
  intro s a r h
  simp [M.fail] at h

theorem pstable_bind {α β : Type} {p : M α} {f : α → M β}
    (hp : PStable p) (hf : ∀ a, PStable (f a)) : PStable (M.bind p f) := by
  intro s b r h
  obtain ⟨a, r1, h1, h2⟩ := M.bind_eq_ok h
  obtain ⟨c1, hs, hrep1⟩ := hp s a r1 h1
  obtain ⟨c2, hr1, hrep2⟩ := hf a r1 b r h2
  refine ⟨c1 ++ c2, by rw [hs, hr1, List.append_assoc], fun t => ?_⟩
  rw [List.append_assoc]
  exact M.bind_ok_intro (hrep1 (c2 ++ t)) (hrep2 t)

theorem pstable_ofExcept {α : Type} (x : Except ParseError α) : PStable (M.ofExcept x) := by
  cases x with
  | ok a => exact pstable_pure a
  | error e => exact pstable_fail e

theorem pstable_readByte : PStable M.readByte := by
  intro s a r h
  cases s with
  | nil => simp [M.readByte] at h
  | cons b rest =>
    have h1 : b = a ∧ rest = r := by simpa [M.readByte] using h
    obtain ⟨rfl, rfl⟩ := h1
    exact ⟨[b], rfl, fun t => rfl⟩

theorem pstable_readBytes (n : Nat) : PStable (M.readBytes n) := by
  induction n with
  | zero => exact pstable_pure []
  | succ n ih =>
    exact pstable_bind pstable_readByte fun b =>
      pstable_bind ih fun bs => pstable_pure (b :: bs)

theorem pstable_count {α : Type} (n : Nat) {p : M α} (hp : PStable p) :
    PStable (M.count n p) := by
  induction n with
  | zero => exact pstable_pure []
  | succ n ih =>
    exact pstable_bind hp fun a => pstable_bind ih fun xs => pstable_pure (a :: xs)

theorem pstable_objectHeader_parse : PStable ObjectHeader.parse := by
  unfold ObjectHeader.parse
  refine pstable_bind pstable_readByte fun b => ?_
  split_ifs <;> first | exact pstable_pure _ | exact pstable_fail _

theorem pstable_objectHeader_parse32 : PStable ObjectHeader.parse32 := by
  unfold ObjectHeader.parse32
  refine pstable_bind (pstable_readBytes 4) fun bs => ?_
  split_ifs <;> first | exact pstable_pure _ | exact pstable_fail _

theorem pstable_objectHeader_parseEnd8 : PStable ObjectHeader.parseEnd8 := by
  unfold ObjectHeader.parseEnd8
  refine pstable_bind pstable_readByte fun b => ?_
  split_ifs <;> first | exact pstable_pure _ | exact pstable_fail _

theorem pstable_compactU64_parse : PStable CompactU64.parse := by
  unfold CompactU64.parse
  refine pstable_bind pstable_readByte fun b => ?_
  split_ifs <;>
    first
      | exact pstable_pure _
      | exact pstable_fail _
      | exact pstable_bind (pstable_readBytes _) fun bs => pstable_pure _

theorem pstable_exGuid_parse : PStable ExGuid.parse :=
  pstable_bind (pstable_readBytes 16) fun _ =>
    pstable_bind (pstable_readBytes 4) fun _ => pstable_pure _

theorem pstable_exGuid_parseEntry (prev : Option (List Nat)) :
    PStable (ExGuid.parseEntry prev) := by
  unfold ExGuid.parseEntry
  refine pstable_bind pstable_readByte fun flag => ?_
  split_ifs
  · exact pstable_exGuid_parse
  · cases prev with
    | some guid => exact pstable_bind (pstable_readBytes 4) fun _ => pstable_pure _
    | none => exact pstable_fail _

theorem pstable_exGuid_parseEntries (n : Nat) :
    ∀ prev, PStable (ExGuid.parseEntries n prev) := by
  induction n with
  | zero => intro prev; exact pstable_pure []
  | succ n ih =>
    intro prev
    exact pstable_bind (pstable_exGuid_parseEntry prev) fun g =>
      pstable_bind (ih (some g.guid)) fun gs => pstable_pure _

theorem pstable_exGuid_parseArray : PStable ExGuid.parseArray :=
  pstable_bind pstable_compactU64_parse fun n => pstable_exGuid_parseEntries n none

theorem pstable_cellId_parse : PStable CellId.parse :=
  pstable_bind pstable_exGuid_parse fun _ =>
    pstable_bind pstable_exGuid_parse fun _ => pstable_pure _

theorem pstable_cellId_parseArray : PStable CellId.parseArray :=
  pstable_bind pstable_compactU64_parse fun n => pstable_count n pstable_cellId_parse

theorem pstable_binaryItem_parse : PStable BinaryItem.parse :=
  pstable_bind pstable_compactU64_parse fun n => pstable_readBytes n

/-! ## Helper lemmas: the end-marker lookahead -/

theorem tryParseEnd8_true {t : ObjectType} {s r : List Nat}
    (h : ObjectHeader.tryParseEnd8 t s = (true, r)) : s = t.endByte :: r := by
  cases s with
  | nil => simp [ObjectHeader.tryParseEnd8] at h
  | cons b rest =>
    by_cases hb : b = t.endByte
    · have h1 : rest = r := by simpa [ObjectHeader.tryParseEnd8, hb] using h
      rw [hb, h1]
    · simp [ObjectHeader.tryParseEnd8, hb] at h

theorem tryParseEnd8_endByte (t : ObjectType) (u : List Nat) :
    ObjectHeader.tryParseEnd8 t (t.endByte :: u) = (true, u) := by
  simp [ObjectHeader.tryParseEnd8]

theorem tryParseEnd8_head_ne {t : ObjectType} {b : Nat} {u : List Nat} {x : Bool}
    {p : List Nat} (h : ObjectHeader.tryParseEnd8 t (b :: u) = (x, p)) (hx : x = false) :
    b ≠ t.endByte := by
  intro hb
  rw [hb, tryParseEnd8_endByte] at h
  rw [hx] at h
  simp at h

theorem tryParseEnd8_ne (t : ObjectType) {b : Nat} (u : List Nat) (hb : b ≠ t.endByte) :
    ObjectHeader.tryParseEnd8 t (b :: u) = (false, b :: u) := by
  simp [ObjectHeader.tryParseEnd8, hb]

/-! ## Helper lemmas: the repetition loops -/

theorem repeatUntilEnd_step_true {α : Type} (t : ObjectType) (body : M α) (fuel : Nat)
    {s r : List Nat} (h : ObjectHeader.tryParseEnd8 t s = (true, r)) :
    M.repeatUntilEnd t body (fuel + 1) s = .ok ([], r) := by
  unfold M.repeatUntilEnd
  rw [h]

theorem repeatUntilEnd_step_false {α : Type} (t : ObjectType) (body : M α) (fuel : Nat)
    {s : List Nat} (hend : (ObjectHeader.tryParseEnd8 t s).1 = false) :
    M.repeatUntilEnd t body (fuel + 1) s =
      M.bind body (fun a =>
        M.bind (M.repeatUntilEnd t body fuel) fun xs =>
        M.pure (a :: xs)) s := by
  have heq : M.repeatUntilEnd t body (fuel + 1) s =
      match ObjectHeader.tryParseEnd8 t s with
      | (true, r) => Except.ok ([], r)
      | (false, _) =>
        M.bind body (fun a =>
          M.bind (M.repeatUntilEnd t body fuel) fun xs =>
          M.pure (a :: xs)) s := rfl
  rw [heq]
  cases hE : ObjectHeader.tryParseEnd8 t s with
  | mk flag rest =>
    rw [hE] at hend
    cases flag with
    | true => simp at hend
    | false => rfl

theorem pstable_parseDeclaration : PStable parseDeclaration := by
  unfold parseDeclaration
  refine pstable_bind pstable_objectHeader_parse fun header => ?_
  obtain ⟨ot, comp⟩ := header
  cases ot <;>
    first
      | exact pstable_fail _
      | exact pstable_bind pstable_exGuid_parse fun _ =>
          pstable_bind pstable_compactU64_parse fun _ =>
          pstable_bind pstable_compactU64_parse fun _ =>
          pstable_bind pstable_compactU64_parse fun _ =>
          pstable_bind pstable_compactU64_parse fun _ => pstable_pure _
      | exact pstable_bind pstable_exGuid_parse fun _ =>
          pstable_bind pstable_exGuid_parse fun _ =>
          pstable_bind pstable_compactU64_parse fun _ =>
          pstable_bind pstable_compactU64_parse fun _ =>
          pstable_bind pstable_compactU64_parse fun _ => pstable_pure _

theorem pstable_parseMetadataEntry : PStable parseMetadataEntry := by
  unfold parseMetadataEntry
  refine pstable_bind pstable_objectHeader_parse32 fun header => ?_
  split_ifs
  · exact pstable_bind pstable_compactU64_parse fun f =>
      pstable_bind (pstable_ofExcept _) fun cf => pstable_pure _
  · exact pstable_fail _

theorem pstable_parseDataRecord : PStable parseDataRecord := by
  unfold parseDataRecord
  refine pstable_bind pstable_objectHeader_parse fun header => ?_
  obtain ⟨ot, comp⟩ := header
  cases ot <;>
    first
      | exact pstable_fail _
      | exact pstable_bind pstable_exGuid_parseArray fun _ =>
          pstable_bind pstable_cellId_parseArray fun _ =>
          pstable_bind pstable_compactU64_parse fun _ => pstable_pure _
      | exact pstable_bind pstable_exGuid_parseArray fun _ =>
          pstable_bind pstable_cellId_parseArray fun _ =>
          pstable_bind pstable_binaryItem_parse fun _ => pstable_pure _
      | exact pstable_bind pstable_exGuid_parseArray fun _ =>
          pstable_bind pstable_cellId_parseArray fun _ =>
          pstable_bind pstable_exGuid_parse fun _ => pstable_pure _

theorem parseDeclaration_nil :
    parseDeclaration [] = .error ParseError.unexpectedEndOfStream := rfl

theorem parseMetadataEntry_nil :
    parseMetadataEntry [] = .error ParseError.unexpectedEndOfStream := rfl

theorem parseDataRecord_nil :
    parseDataRecord [] = .error ParseError.unexpectedEndOfStream := rfl

theorem pstable_repeatUntilEnd {α : Type} (t : ObjectType) {body : M α}
    (hbody : PStable body) (hnil : ∀ a r, body [] ≠ .ok (a, r)) :
    ∀ fuel, PStable (M.repeatUntilEnd t body fuel) := by
  intro fuel
  induction fuel with
  | zero => exact pstable_fail _
  | succ fuel ih =>
    intro s a r h
    unfold M.repeatUntilEnd at h
    cases hEnd : ObjectHeader.tryParseEnd8 t s with
    | mk flag rest =>
      rw [hEnd] at h
      cases flag with
      | true =>
        have h1 : [] = a ∧ rest = r := by simpa using h
        obtain ⟨rfl, rfl⟩ := h1
        have hs := tryParseEnd8_true hEnd
        refine ⟨[t.endByte], hs, fun u => ?_⟩
        unfold M.repeatUntilEnd
        rw [List.singleton_append, tryParseEnd8_endByte]
      | false =>
        have hq : PStable (M.bind body fun x =>
            M.bind (M.repeatUntilEnd t body fuel) fun xs => M.pure (x :: xs)) :=
          pstable_bind hbody fun x => pstable_bind ih fun xs => pstable_pure _
        obtain ⟨c, hs, hrep⟩ := hq s a r h
        have hc : c ≠ [] := by
          intro hceq
          have h0 := hrep []
          rw [hceq] at h0
          obtain ⟨x, r1, hx, _⟩ := M.bind_eq_ok h0
          exact hnil x r1 hx
        obtain ⟨b, c2, rfl⟩ := List.exists_cons_of_ne_nil hc
        have hb : b ≠ t.endByte := by
          rw [hs] at hEnd
          exact tryParseEnd8_head_ne hEnd rfl
        refine ⟨b :: c2, hs, fun u => ?_⟩
        unfold M.repeatUntilEnd
        rw [List.cons_append, tryParseEnd8_ne t (c2 ++ u) hb]
        exact hrep u

theorem pstable_parseDeclsLoop (fuel : Nat) : PStable (parseDeclsLoop fuel) :=
  pstable_repeatUntilEnd _ pstable_parseDeclaration
    (fun a r h => by rw [parseDeclaration_nil] at h; cases h) fuel

theorem pstable_parseMetadataLoop (fuel : Nat) : PStable (parseMetadataLoop fuel) :=
  pstable_repeatUntilEnd _ pstable_parseMetadataEntry
    (fun a r h => by rw [parseMetadataEntry_nil] at h; cases h) fuel

theorem pstable_parseDataLoop (fuel : Nat) : PStable (parseDataLoop fuel) :=
  pstable_repeatUntilEnd _ pstable_parseDataRecord
    (fun a r h => by rw [parseDataRecord_nil] at h; cases h) fuel

theorem pstable_parseObjectGroupDeclarations (fuel : Nat) :
    PStable (parseObjectGroupDeclarations fuel) := by
  unfold parseObjectGroupDeclarations
  refine pstable_bind pstable_objectHeader_parse fun header => ?_
  split_ifs
  · exact pstable_parseDeclsLoop fuel
  · exact pstable_fail _

theorem pstable_parseGroupTail (fuel : Nat) (ds : List ObjectGroupDeclaration)
    (md : List ObjectGroupMetadata) : PStable (parseGroupTail fuel ds md) := by
  unfold parseGroupTail
  refine pstable_bind (pstable_parseDataLoop fuel) fun objs => ?_
  refine pstable_bind pstable_objectHeader_parseEnd8 fun et => ?_
  split_ifs
  · exact pstable_pure _
  · exact pstable_fail _

theorem pstable_parseObjectGroup (fuel : Nat) : PStable (parseObjectGroup fuel) := by
  unfold parseObjectGroup
  refine pstable_bind (pstable_parseObjectGroupDeclarations fuel) fun ds => ?_
  refine pstable_bind pstable_objectHeader_parse fun header => ?_
  refine pstable_bind ?_ fun metadata => pstable_parseGroupTail fuel ds metadata
  obtain ⟨ot, comp⟩ := header
  cases ot <;>
    first
      | exact pstable_fail _
      | exact pstable_pure _
      | · refine pstable_bind (pstable_parseMetadataLoop fuel) fun md => ?_
          refine pstable_bind pstable_objectHeader_parse fun h2 => ?_
          split_ifs
          · exact pstable_pure _
          · exact pstable_fail _

/-! ## Helper lemmas: fuel monotonicity -/

theorem repeatUntilEnd_mono {α : Type} (t : ObjectType) (body : M α) (f g : Nat)
    (hfg : f ≤ g) {s : List Nat} {v : List α × List Nat}
    (h : M.repeatUntilEnd t body f s = .ok v) : M.repeatUntilEnd t body g s = .ok v := by
  induction f generalizing g s v with
  | zero => simp [M.repeatUntilEnd, M.fail] at h
  | succ f ih =>
    obtain ⟨g2, rfl⟩ : ∃ g2, g = g2 + 1 := ⟨g - 1, by omega⟩
    unfold M.repeatUntilEnd at h ⊢
    cases hEnd : ObjectHeader.tryParseEnd8 t s with
    | mk flag rest =>
      rw [hEnd] at h
      cases flag with
      | true => exact h
      | false =>
        obtain ⟨vv, vr⟩ := v
        obtain ⟨a, r1, h1, h2⟩ := M.bind_eq_ok h
        obtain ⟨xs, r2, h3, h4⟩ := M.bind_eq_ok h2
        exact M.bind_ok_intro h1 (M.bind_ok_intro (ih g2 (by omega) h3) h4)

theorem parseDeclsLoop_mono (f g : Nat) (hfg : f ≤ g) {s : List Nat}
    {v : List ObjectGroupDeclaration × List Nat} (h : parseDeclsLoop f s = .ok v) :
    parseDeclsLoop g s = .ok v :=
  repeatUntilEnd_mono _ _ f g hfg h

theorem parseMetadataLoop_mono (f g : Nat) (hfg : f ≤ g) {s : List Nat}
    {v : List ObjectGroupMetadata × List Nat} (h : parseMetadataLoop f s = .ok v) :
    parseMetadataLoop g s = .ok v :=
  repeatUntilEnd_mono _ _ f g hfg h

theorem parseDataLoop_mono (f g : Nat) (hfg : f ≤ g) {s : List Nat}
    {v : List ObjectGroupData × List Nat} (h : parseDataLoop f s = .ok v) :
    parseDataLoop g s = .ok v :=
  repeatUntilEnd_mono _ _ f g hfg h

theorem parseObjectGroupDeclarations_mono (f g : Nat) (hfg : f ≤ g) {s : List Nat}
    {v : List ObjectGroupDeclaration × List Nat}
    (h : parseObjectGroupDeclarations f s = .ok v) :
    parseObjectGroupDeclarations g s = .ok v := by
  unfold parseObjectGroupDeclarations at h ⊢
  obtain ⟨hd, r1, h1, h2⟩ := M.bind_eq_ok (by exact h)
  refine M.bind_ok_intro h1 ?_
  split_ifs at h2 ⊢
  · exact parseDeclsLoop_mono f g hfg h2
  · exact h2

theorem parseGroupTail_mono (f g : Nat) (hfg : f ≤ g) (ds : List ObjectGroupDeclaration)
    (md : List ObjectGroupMetadata) {s : List Nat} {v : DataElementValue × List Nat}
    (h : parseGroupTail f ds md s = .ok v) : parseGroupTail g ds md s = .ok v := by
  unfold parseGroupTail at h ⊢
  obtain ⟨objs, r1, h1, h2⟩ := M.bind_eq_ok (by exact h)
  exact M.bind_ok_intro (parseDataLoop_mono f g hfg h1) h2

theorem parseObjectGroup_mono (f g : Nat) (hfg : f ≤ g) {s : List Nat}
    {v : DataElementValue × List Nat} (h : parseObjectGroup f s = .ok v) :
    parseObjectGroup g s = .ok v := by
  unfold parseObjectGroup at h ⊢
  obtain ⟨ds, r1, h1, h2⟩ := M.bind_eq_ok (by exact h)
  obtain ⟨hd, r2, h3, h4⟩ := M.bind_eq_ok h2
  obtain ⟨md, r3, h5, h6⟩ := M.bind_eq_ok h4
  refine M.bind_ok_intro (parseObjectGroupDeclarations_mono f g hfg h1) ?_
  refine M.bind_ok_intro h3 ?_
  obtain ⟨ot, comp⟩ := hd
  cases ot <;>
    first
      | exact M.bind_ok_intro h5 (parseGroupTail_mono f g hfg ds md h6)
      | · obtain ⟨md2, r5, h9, h10⟩ := M.bind_eq_ok h5
          exact M.bind_ok_intro
            (M.bind_ok_intro (parseMetadataLoop_mono f g hfg h9) h10)
            (parseGroupTail_mono f g hfg ds md h6)

end OneNote

namespace OneNote

theorem M.pure_eq_ok {α : Type} {a b : α} {s r : List Nat}
    (h : M.pure a s = .ok (b, r)) : a = b ∧ s = r := by
  simpa [M.pure] using h

theorem parseDeclaration_ok_inv {s : List Nat} {d : ObjectGroupDeclaration} {r2 : List Nat}
    (h : parseDeclaration s = .ok (d, r2)) :
    ∃ header r1, ObjectHeader.parse s = .ok (header, r1) ∧
      ((header.objectType = ObjectType.objectGroupObject ∧
        ∃ oid ra pid rb sz rc oc rd cc,
          ExGuid.parse r1 = .ok (oid, ra) ∧
          CompactU64.parse ra = .ok (pid, rb) ∧
          CompactU64.parse rb = .ok (sz, rc) ∧
          CompactU64.parse rc = .ok (oc, rd) ∧
          CompactU64.parse rd = .ok (cc, r2) ∧
          d = ObjectGroupDeclaration.Object oid pid sz oc cc) ∨
       (header.objectType = ObjectType.objectGroupDataBlob ∧
        ∃ oid ra bid rb pid rc oc rd cc,
          ExGuid.parse r1 = .ok (oid, ra) ∧
          ExGuid.parse ra = .ok (bid, rb) ∧
          CompactU64.parse rb = .ok (pid, rc) ∧
          CompactU64.parse rc = .ok (oc, rd) ∧
          CompactU64.parse rd = .ok (cc, r2) ∧
          d = ObjectGroupDeclaration.Blob oid bid pid oc cc)) := by
  unfold parseDeclaration at h
  obtain ⟨header, r1, h1, h2⟩ := M.bind_eq_ok h
  refine ⟨header, r1, h1, ?_⟩
  obtain ⟨ot, comp⟩ := header
  cases ot
  case objectGroupObject =>
    left
    refine ⟨rfl, ?_⟩
    obtain ⟨oid, ra, h3, h4⟩ := M.bind_eq_ok h2
    obtain ⟨pid, rb, h5, h6⟩ := M.bind_eq_ok h4
    obtain ⟨sz, rc, h7, h8⟩ := M.bind_eq_ok h6
    obtain ⟨oc, rd, h9, h10⟩ := M.bind_eq_ok h8
    obtain ⟨cc, rx, h11, h12⟩ := M.bind_eq_ok h10
    obtain ⟨hde, hre⟩ := M.pure_eq_ok h12
    subst hre
    exact ⟨oid, ra, pid, rb, sz, rc, oc, rd, cc, h3, h5, h7, h9, h11, hde.symm⟩
  case objectGroupDataBlob =>
    right
    refine ⟨rfl, ?_⟩
    obtain ⟨oid, ra, h3, h4⟩ := M.bind_eq_ok h2
    obtain ⟨bid, rb, h5, h6⟩ := M.bind_eq_ok h4
    obtain ⟨pid, rc, h7, h8⟩ := M.bind_eq_ok h6
    obtain ⟨oc, rd, h9, h10⟩ := M.bind_eq_ok h8
    obtain ⟨cc, rx, h11, h12⟩ := M.bind_eq_ok h10
    obtain ⟨hde, hre⟩ := M.pure_eq_ok h12
    subst hre
    exact ⟨oid, ra, bid, rb, pid, rc, oc, rd, cc, h3, h5, h7, h9, h11, hde.symm⟩
  all_goals (exfalso; simp [M.fail] at h2)

theorem parseDataRecord_ok_inv {s : List Nat} {d : ObjectGroupData} {r2 : List Nat}
    (h : parseDataRecord s = .ok (d, r2)) :
    ∃ header r1, ObjectHeader.parse s = .ok (header, r1) ∧
      ((header.objectType = ObjectType.objectGroupDataExcluded ∧
        ∃ grp ra cls rb sz,
          ExGuid.parseArray r1 = .ok (grp, ra) ∧
          CellId.parseArray ra = .ok (cls, rb) ∧
          CompactU64.parse rb = .ok (sz, r2) ∧
          d = ObjectGroupData.ObjectExcluded grp cls sz) ∨
       (header.objectType = ObjectType.objectGroupDataObject ∧
        ∃ grp ra cls rb payload,
          ExGuid.parseArray r1 = .ok (grp, ra) ∧
          CellId.parseArray ra = .ok (cls, rb) ∧
          BinaryItem.parse rb = .ok (payload, r2) ∧
          d = ObjectGroupData.Object grp cls payload) ∨
       (header.objectType = ObjectType.objectGroupBlobReference ∧
        ∃ refs ra cls rb blob,
          ExGuid.parseArray r1 = .ok (refs, ra) ∧
          CellId.parseArray ra = .ok (cls, rb) ∧
          ExGuid.parse rb = .ok (blob, r2) ∧
          d = ObjectGroupData.BlobReference refs cls blob)) := by
  unfold parseDataRecord at h
  obtain ⟨header, r1, h1, h2⟩ := M.bind_eq_ok h
  refine ⟨header, r1, h1, ?_⟩
  obtain ⟨ot, comp⟩ := header
  cases ot
  case objectGroupDataExcluded =>
    left
    refine ⟨rfl, ?_⟩
    obtain ⟨grp, ra, h3, h4⟩ := M.bind_eq_ok h2
    obtain ⟨cls, rb, h5, h6⟩ := M.bind_eq_ok h4
    obtain ⟨sz, rx, h7, h8⟩ := M.bind_eq_ok h6
    obtain ⟨hde, hre⟩ := M.pure_eq_ok h8
    subst hre
    exact ⟨grp, ra, cls, rb, sz, h3, h5, h7, hde.symm⟩
  case objectGroupDataObject =>
    right; left
    refine ⟨rfl, ?_⟩
    obtain ⟨grp, ra, h3, h4⟩ := M.bind_eq_ok h2
    obtain ⟨cls, rb, h5, h6⟩ := M.bind_eq_ok h4
    obtain ⟨payload, rx, h7, h8⟩ := M.bind_eq_ok h6
    obtain ⟨hde, hre⟩ := M.pure_eq_ok h8
    subst hre
    exact ⟨grp, ra, cls, rb, payload, h3, h5, h7, hde.symm⟩
  case objectGroupBlobReference =>
    right; right
    refine ⟨rfl, ?_⟩
    obtain ⟨refs, ra, h3, h4⟩ := M.bind_eq_ok h2
    obtain ⟨cls, rb, h5, h6⟩ := M.bind_eq_ok h4
    obtain ⟨blob, rx, h7, h8⟩ := M.bind_eq_ok h6
    obtain ⟨hde, hre⟩ := M.pure_eq_ok h8
    subst hre
    exact ⟨refs, ra, cls, rb, blob, h3, h5, h7, hde.symm⟩
  all_goals (exfalso; simp [M.fail] at h2)

end OneNote

namespace OneNote

theorem parseObjectGroup_decls_error (fuel : Nat) {s : List Nat} {e : ParseError}
    (h : parseObjectGroupDeclarations fuel s = .error e) :
    parseObjectGroup fuel s = .error e := by
  unfold parseObjectGroup
  exact M.bind_eq_error h

theorem parseObjectGroupDeclarations_bad_header (fuel : Nat) {s r1 : List Nat}
    {header : ObjectHeader} (hh : ObjectHeader.parse s = .ok (header, r1))
    (hne : header.objectType ≠ ObjectType.objectGroupDeclaration) :
    parseObjectGroupDeclarations fuel s = .error ParseError.unexpectedObjectType := by
  unfold parseObjectGroupDeclarations
  rw [M.bind_step hh, if_neg hne]
  rfl

theorem parseObjectGroup_after_decls (fuel : Nat) {s r1 : List Nat}
    {ds : List ObjectGroupDeclaration} {header : ObjectHeader} {r2 : List Nat}
    (hds : parseObjectGroupDeclarations fuel s = .ok (ds, r1))
    (hh : ObjectHeader.parse r1 = .ok (header, r2)) :
    parseObjectGroup fuel s =
      M.bind
        (match header.objectType with
         | .objectGroupMetadataBlock =>
           M.bind (parseMetadataLoop fuel) fun metadata =>
           M.bind ObjectHeader.parse fun header2 =>
           if header2.objectType = ObjectType.objectGroupData then M.pure metadata
           else M.fail .unexpectedObjectType
         | .objectGroupData => M.pure []
         | _ => M.fail .unexpectedObjectType)
        (fun metadata => parseGroupTail fuel ds metadata) r2 := by
  unfold parseObjectGroup
  rw [M.bind_step hds, M.bind_step hh]

theorem parseObjectGroup_direct (fuel : Nat) {s r1 : List Nat}
    {ds : List ObjectGroupDeclaration} {header : ObjectHeader} {r2 : List Nat}
    (hds : parseObjectGroupDeclarations fuel s = .ok (ds, r1))
    (hh : ObjectHeader.parse r1 = .ok (header, r2))
    (hd : header.objectType = ObjectType.objectGroupData) :
    parseObjectGroup fuel s = parseGroupTail fuel ds [] r2 := by
  rw [parseObjectGroup_after_decls fuel hds hh, hd]
  exact M.bind_step rfl

theorem parseObjectGroup_other (fuel : Nat) {s r1 : List Nat}
    {ds : List ObjectGroupDeclaration} {header : ObjectHeader} {r2 : List Nat}
    (hds : parseObjectGroupDeclarations fuel s = .ok (ds, r1))
    (hh : ObjectHeader.parse r1 = .ok (header, r2))
    (h1 : header.objectType ≠ ObjectType.objectGroupMetadataBlock)
    (h2 : header.objectType ≠ ObjectType.objectGroupData) :
    parseObjectGroup fuel s = .error ParseError.unexpectedObjectType := by
  rw [parseObjectGroup_after_decls fuel hds hh]
  obtain ⟨ot, comp⟩ := header
  cases ot
  case objectGroupMetadataBlock => exact absurd rfl h1
  case objectGroupData => exact absurd rfl h2
  all_goals exact M.bind_eq_error rfl

theorem parseObjectGroup_meta (fuel : Nat) {s r1 : List Nat}
    {ds : List ObjectGroupDeclaration} {header : ObjectHeader} {r2 : List Nat}
    {md : List ObjectGroupMetadata} {r3 : List Nat} {header2 : ObjectHeader} {r4 : List Nat}
    (hds : parseObjectGroupDeclarations fuel s = .ok (ds, r1))
    (hh : ObjectHeader.parse r1 = .ok (header, r2))
    (hmb : header.objectType = ObjectType.objectGroupMetadataBlock)
    (hml : parseMetadataLoop fuel r2 = .ok (md, r3))
    (hh2 : ObjectHeader.parse r3 = .ok (header2, r4)) :
    (header2.objectType = ObjectType.objectGroupData →
       parseObjectGroup fuel s = parseGroupTail fuel ds md r4) ∧
    (header2.objectType ≠ ObjectType.objectGroupData →
       parseObjectGroup fuel s = .error ParseError.unexpectedObjectType) := by
  have hbase : parseObjectGroup fuel s =
      M.bind
        (M.bind (parseMetadataLoop fuel) fun metadata =>
          M.bind ObjectHeader.parse fun h2 =>
          if h2.objectType = ObjectType.objectGroupData then M.pure metadata
          else M.fail .unexpectedObjectType)
        (fun metadata => parseGroupTail fuel ds metadata) r2 := by
    rw [parseObjectGroup_after_decls fuel hds hh, hmb]
  constructor
  · intro hok
    have hinner : (M.bind (parseMetadataLoop fuel) fun metadata =>
        M.bind ObjectHeader.parse fun h2 =>
        if h2.objectType = ObjectType.objectGroupData then M.pure metadata
        else M.fail .unexpectedObjectType) r2 = .ok (md, r4) := by
      rw [M.bind_step hml, M.bind_step hh2, if_pos hok]
      rfl
    rw [hbase]
    exact M.bind_step hinner
  · intro hne
    have hinner : (M.bind (parseMetadataLoop fuel) fun metadata =>
        M.bind ObjectHeader.parse fun h2 =>
        if h2.objectType = ObjectType.objectGroupData then M.pure metadata
        else M.fail .unexpectedObjectType) r2 = .error ParseError.unexpectedObjectType := by
      rw [M.bind_step hml, M.bind_step hh2, if_neg hne]
      rfl
    rw [hbase]
    exact M.bind_eq_error hinner

theorem parseGroupTail_result (fuel : Nat) (ds : List ObjectGroupDeclaration)
    (md : List ObjectGroupMetadata) {r4 : List Nat} {objs : List ObjectGroupData}
    {r5 : List Nat} {et : ObjectType} {r6 : List Nat}
    (hdl : parseDataLoop fuel r4 = .ok (objs, r5))
    (hend : ObjectHeader.parseEnd8 r5 = .ok (et, r6)) :
    (et = ObjectType.dataElement →
       parseGroupTail fuel ds md r4 =
         .ok (DataElementValue.ObjectGroup ⟨ds, md, objs⟩, r6)) ∧
    (et ≠ ObjectType.dataElement →
       parseGroupTail fuel ds md r4 = .error ParseError.unexpectedObjectType) := by
  constructor <;> intro hcond <;> unfold parseGroupTail <;>
    rw [M.bind_step hdl, M.bind_step hend]
  · rw [if_pos hcond]
    rfl
  · rw [if_neg hcond]
    rfl

end OneNote

namespace OneNote

/-! ## Claims -/

/-- Claim C2: for every cursor position and every expected enclosing type,
the end-marker lookahead either consumes exactly one complete end marker
whose enclosing-type field matches the expected type and reports a match,
or leaves the cursor exactly where it was and reports no match; it never
partially consumes bytes. -/
theorem c2_end_marker_lookahead_atomic (t : ObjectType) (s : List Nat) :
    (∃ r, s = t.endByte :: r ∧ ObjectHeader.tryParseEnd8 t s = (true, r)) ∨
    ObjectHeader.tryParseEnd8 t s = (false, s) := by
  cases s with
  | nil => right; rfl
  | cons b rest =>
    by_cases hb : b = t.endByte
    · left
      exact ⟨rest, by rw [hb], by rw [hb]; exact tryParseEnd8_endByte t rest⟩
    · right
      exact tryParseEnd8_ne t rest hb

/-- Claim C7: decoding a metadata entry reads one compact integer and maps
it to a change frequency by the fixed correspondence unknown=0, frequent=1,
infrequent=2, independent=3, custom=4; every integer outside that set (for
example 7) makes the decode fail with `invalidEnumValue`. -/
theorem c7_change_frequency_mapping (s r1 r2 : List Nat) (header : ObjectHeader) (v : Nat)
    (hh : ObjectHeader.parse32 s = .ok (header, r1))
    (hty : header.objectType = ObjectType.objectGroupMetadata)
    (hv : CompactU64.parse r1 = .ok (v, r2)) :
    ObjectChangeFrequency.parse 0 = .ok ObjectChangeFrequency.Unknown ∧
    ObjectChangeFrequency.parse 1 = .ok ObjectChangeFrequency.Frequent ∧
    ObjectChangeFrequency.parse 2 = .ok ObjectChangeFrequency.Infrequent ∧
    ObjectChangeFrequency.parse 3 = .ok ObjectChangeFrequency.Independent ∧
    ObjectChangeFrequency.parse 4 = .ok ObjectChangeFrequency.Custom ∧
    (∀ w : Nat, 4 < w → ObjectChangeFrequency.parse w = .error ParseError.invalidEnumValue) ∧
    (∀ cf, ObjectChangeFrequency.parse v = .ok cf →
       parseMetadataEntry s = .ok (⟨cf⟩, r2)) ∧
    (4 < v → parseMetadataEntry s = .error ParseError.invalidEnumValue) := by
  have hout : ∀ w : Nat, 4 < w →
      ObjectChangeFrequency.parse w = .error ParseError.invalidEnumValue := by
    intro w hw
    unfold ObjectChangeFrequency.parse
    simp only [ObjectChangeFrequency.toNat]
    split_ifs <;> first | rfl | omega
  refine ⟨rfl, rfl, rfl, rfl, rfl, hout, ?_, ?_⟩
  · intro cf hcf
    unfold parseMetadataEntry
    rw [M.bind_step hh, hty, if_pos rfl]
    rw [M.bind_step hv, hcf]
    rfl
  · intro hv4
    unfold parseMetadataEntry
    rw [M.bind_step hh, hty, if_pos rfl]
    rw [M.bind_step hv, hout v hv4]
    rfl

/-- Witness for claim C7: a wide metadata-entry header followed by the
compact integer 7 satisfies the hypotheses, and the decode of that entry
fails with `invalidEnumValue`. -/
theorem c7_change_frequency_mapping_witness :
    ObjectHeader.parse32 [34, 0, 0, 0, 56] =
      .ok (⟨ObjectType.objectGroupMetadata, false⟩, [56]) ∧
    CompactU64.parse [56] = .ok (7, []) ∧
    parseMetadataEntry [34, 0, 0, 0, 56] = .error ParseError.invalidEnumValue :=
  ⟨rfl, rfl,
   (c7_change_frequency_mapping [34, 0, 0, 0, 56] [56] [] ⟨ObjectType.objectGroupMetadata, false⟩ 7
     rfl rfl rfl).2.2.2.2.2.2.2 (by omega)⟩

/-- Claim C8: for every byte sequence on which the decoder succeeds, every
strict prefix that ends before the final end marker makes the decoder fail:
it never returns an object group, in particular never a shorter one. -/
theorem c8_truncation_fails (s r : List Nat) (g : DataElementValue)
    (h : parseObjectGroupBytes s = .ok (g, r)) (p : List Nat) (hp : p <+: s)
    (hlen : p.length < s.length - r.length) : decodeOk p = false := by
  by_contra hok
  have hok2 : ∃ v, parseObjectGroupBytes p = .ok v := by
    unfold decodeOk at hok
    cases hv : parseObjectGroupBytes p with
    | ok v => exact ⟨v, rfl⟩
    | error e => rw [hv] at hok; simp at hok
  obtain ⟨⟨g2, r2⟩, hp2⟩ := hok2
  have hplen : p.length ≤ s.length := hp.length_le
  have hp3 : parseObjectGroup (s.length + 1) p = .ok (g2, r2) :=
    parseObjectGroup_mono (p.length + 1) (s.length + 1) (by omega) hp2
  have hs3 : parseObjectGroup (s.length + 1) s = .ok (g, r) := h
  obtain ⟨c, hc, hrepc⟩ := pstable_parseObjectGroup (s.length + 1) s g r hs3
  obtain ⟨c2, hc2, hrepc2⟩ := pstable_parseObjectGroup (s.length + 1) p g2 r2 hp3
  have hclen : c.length = s.length - r.length := by
    rw [hc, List.length_append]
    omega
  have hc2len : c2.length ≤ p.length := by
    rw [hc2, List.length_append]
    omega
  have hcs : c <+: s := ⟨r, hc.symm⟩
  have hc2p : c2 <+: p := ⟨r2, hc2.symm⟩
  have hc2s : c2 <+: s := List.IsPrefix.trans hc2p hp
  have hc2c : c2 <+: c := List.prefix_of_prefix_length_le hc2s hcs (by omega)
  obtain ⟨d, hd⟩ := hc2c
  have h1 : parseObjectGroup (s.length + 1) c = .ok (g, []) := by
    have h0 := hrepc []
    rwa [List.append_nil] at h0
  have h2 : parseObjectGroup (s.length + 1) c = .ok (g2, d) := by
    rw [← hd]
    exact hrepc2 d
  rw [h1] at h2
  have hdnil : d = [] := by
    have h3 : g = g2 ∧ [] = d := by simpa using h2
    exact h3.2.symm
  rw [hdnil, List.append_nil] at hd
  rw [hd] at hc2len
  omega

/-- Witness for claim C8: a five-byte well-formed group (empty
declarations, no metadata, empty data) decodes successfully, and its
three-byte strict prefix, which ends before the final end marker, makes the
decoder fail. -/
theorem c8_truncation_fails_witness :
    parseObjectGroupBytes [8, 11, 20, 23, 7] =
      .ok (DataElementValue.ObjectGroup ⟨[], [], []⟩, []) ∧
    [8, 11, 20] <+: [8, 11, 20, 23, 7] ∧
    ([8, 11, 20] : List Nat).length <
      ([8, 11, 20, 23, 7] : List Nat).length - ([] : List Nat).length ∧
    decodeOk [8, 11, 20] = false :=
  ⟨rfl, by decide, by decide,
   c8_truncation_fails [8, 11, 20, 23, 7] [] (DataElementValue.ObjectGroup ⟨[], [], []⟩) rfl
     [8, 11, 20] (by decide) (by decide)⟩

/-- Claim C10: the hand-written Debug implementation renders a
BlobReference record under the struct label ObjectExcluded — the same label
used for ObjectExcluded records — rather than BlobReference, and renders an
Object record's payload only as its byte count, never as the payload bytes
themselves. -/
theorem c10_debug_blobreference_label :
    (∀ objects cells blob size,
       (ObjectGroupData.BlobReference objects cells blob).fmtDebug.name = "ObjectExcluded" ∧
       (ObjectGroupData.BlobReference objects cells blob).fmtDebug.name =
         (ObjectGroupData.ObjectExcluded objects cells size).fmtDebug.name ∧
       (ObjectGroupData.BlobReference objects cells blob).fmtDebug.name ≠ "BlobReference") ∧
    (∀ group cells data, ∃ g c,
       (ObjectGroupData.Object group cells data).fmtDebug.fields =
         [("group", g), ("cells", c), ("data", toString data.length ++ " bytes")]) := by
  constructor
  · intro objects cells blob size
    refine ⟨rfl, rfl, ?_⟩
    show ("ObjectExcluded" : String) ≠ "BlobReference"
    decide
  · intro group cells data
    exact ⟨_, _, rfl⟩

end OneNote

namespace OneNote

/-- Claim C3: in the declarations loop, every iteration that is not the end
marker reads one header; a declaration-object header reads, in order, one
extended GUID then four compact integers (partition number, declared size,
object-reference count, cell-reference count) and appends an Object
declaration with exactly those field values; a declaration-blob header
reads two extended GUIDs (object id, blob id) then three compact integers
and appends a Blob declaration; any other header type fails the decode with
`unexpectedObjectType`; the declaration sequence preserves stream order. -/
theorem c3_declarations_iteration (fuel : Nat) (s : List Nat)
    (hend : (ObjectHeader.tryParseEnd8 ObjectType.objectGroupDeclaration s).1 = false) :
    (∀ header r1, ObjectHeader.parse s = .ok (header, r1) →
       header.objectType ≠ ObjectType.objectGroupObject →
       header.objectType ≠ ObjectType.objectGroupDataBlob →
       parseDeclsLoop (fuel + 1) s = .error ParseError.unexpectedObjectType) ∧
    (∀ ds r, parseDeclsLoop (fuel + 1) s = .ok (ds, r) →
       ∃ d r2 ds2, ds = d :: ds2 ∧
         parseDeclaration s = .ok (d, r2) ∧
         parseDeclsLoop fuel r2 = .ok (ds2, r) ∧
         ∃ header r1, ObjectHeader.parse s = .ok (header, r1) ∧
           ((header.objectType = ObjectType.objectGroupObject ∧
             ∃ oid ra pid rb sz rc oc rd cc,
               ExGuid.parse r1 = .ok (oid, ra) ∧
               CompactU64.parse ra = .ok (pid, rb) ∧
               CompactU64.parse rb = .ok (sz, rc) ∧
               CompactU64.parse rc = .ok (oc, rd) ∧
               CompactU64.parse rd = .ok (cc, r2) ∧
               d = ObjectGroupDeclaration.Object oid pid sz oc cc) ∨
            (header.objectType = ObjectType.objectGroupDataBlob ∧
             ∃ oid ra bid rb pid rc oc rd cc,
               ExGuid.parse r1 = .ok (oid, ra) ∧
               ExGuid.parse ra = .ok (bid, rb) ∧
               CompactU64.parse rb = .ok (pid, rc) ∧
               CompactU64.parse rc = .ok (oc, rd) ∧
               CompactU64.parse rd = .ok (cc, r2) ∧
               d = ObjectGroupDeclaration.Blob oid bid pid oc cc))) := by
  constructor
  · intro header r1 hh hno hnb
    have hpd : parseDeclaration s = .error ParseError.unexpectedObjectType := by
      unfold parseDeclaration
      rw [M.bind_step hh]
      obtain ⟨ot, comp⟩ := header
      cases ot
      case objectGroupObject => exact absurd rfl hno
      case objectGroupDataBlob => exact absurd rfl hnb
      all_goals rfl
    unfold parseDeclsLoop
    rw [repeatUntilEnd_step_false _ _ fuel hend]
    exact M.bind_eq_error hpd
  · intro ds r hloop
    unfold parseDeclsLoop at hloop
    rw [repeatUntilEnd_step_false _ _ fuel hend] at hloop
    obtain ⟨d, r2, hd, hk⟩ := M.bind_eq_ok hloop
    obtain ⟨ds2, r3, hl, hp⟩ := M.bind_eq_ok hk
    obtain ⟨hds, hr⟩ := M.pure_eq_ok hp
    subst hr
    exact ⟨d, r2, ds2, hds.symm, hd, hl, parseDeclaration_ok_inv hd⟩

/-- Witness for claim C3: a declarations-loop position holding a data-block
header (neither declaration variant, not the end marker) satisfies the
hypotheses and makes the loop fail with `unexpectedObjectType`. -/
theorem c3_declarations_iteration_witness :
    (ObjectHeader.tryParseEnd8 ObjectType.objectGroupDeclaration [20]).1 = false ∧
    ObjectHeader.parse [20] = .ok (⟨ObjectType.objectGroupData, false⟩, []) ∧
    parseDeclsLoop 1 [20] = .error ParseError.unexpectedObjectType :=
  ⟨by decide, rfl,
   (c3_declarations_iteration 0 [20] (by decide)).1 ⟨ObjectType.objectGroupData, false⟩ []
     rfl (by decide) (by decide)⟩

/-- Claim C4: in the data loop, every record that is not the end marker
begins with one header followed by an extended-GUID array and a cell-id
array; a data-excluded header then reads a compact integer and appends an
ObjectExcluded record with that declared size; a data-object header then
reads a length-prefixed blob and appends an Object record with that
payload; a blob-reference header then reads one extended GUID and appends a
BlobReference record pointing at it; any other header type fails the
decode with `unexpectedObjectType`; records are appended in stream
order. -/
theorem c4_data_iteration (fuel : Nat) (s : List Nat)
    (hend : (ObjectHeader.tryParseEnd8 ObjectType.objectGroupData s).1 = false) :
    (∀ header r1, ObjectHeader.parse s = .ok (header, r1) →
       header.objectType ≠ ObjectType.objectGroupDataExcluded →
       header.objectType ≠ ObjectType.objectGroupDataObject →
       header.objectType ≠ ObjectType.objectGroupBlobReference →
       parseDataLoop (fuel + 1) s = .error ParseError.unexpectedObjectType) ∧
    (∀ ds r, parseDataLoop (fuel + 1) s = .ok (ds, r) →
       ∃ d r2 ds2, ds = d :: ds2 ∧
         parseDataRecord s = .ok (d, r2) ∧
         parseDataLoop fuel r2 = .ok (ds2, r) ∧
         ∃ header r1, ObjectHeader.parse s = .ok (header, r1) ∧
           ((header.objectType = ObjectType.objectGroupDataExcluded ∧
             ∃ grp ra cls rb sz,
               ExGuid.parseArray r1 = .ok (grp, ra) ∧
               CellId.parseArray ra = .ok (cls, rb) ∧
               CompactU64.parse rb = .ok (sz, r2) ∧
               d = ObjectGroupData.ObjectExcluded grp cls sz) ∨
            (header.objectType = ObjectType.objectGroupDataObject ∧
             ∃ grp ra cls rb payload,
               ExGuid.parseArray r1 = .ok (grp, ra) ∧
               CellId.parseArray ra = .ok (cls, rb) ∧
               BinaryItem.parse rb = .ok (payload, r2) ∧
               d = ObjectGroupData.Object grp cls payload) ∨
            (header.objectType = ObjectType.objectGroupBlobReference ∧
             ∃ refs ra cls rb blob,
               ExGuid.parseArray r1 = .ok (refs, ra) ∧
               CellId.parseArray ra = .ok (cls, rb) ∧
               ExGuid.parse rb = .ok (blob, r2) ∧
               d = ObjectGroupData.BlobReference refs cls blob))) := by
  constructor
  · intro header r1 hh hne hno hnr
    have hpd : parseDataRecord s = .error ParseError.unexpectedObjectType := by
      unfold parseDataRecord
      rw [M.bind_step hh]
      obtain ⟨ot, comp⟩ := header
      cases ot
      case objectGroupDataExcluded => exact absurd rfl hne
      case objectGroupDataObject => exact absurd rfl hno
      case objectGroupBlobReference => exact absurd rfl hnr
      all_goals rfl
    unfold parseDataLoop
    rw [repeatUntilEnd_step_false _ _ fuel hend]
    exact M.bind_eq_error hpd
  · intro ds r hloop
    unfold parseDataLoop at hloop
    rw [repeatUntilEnd_step_false _ _ fuel hend] at hloop
    obtain ⟨d, r2, hd, hk⟩ := M.bind_eq_ok hloop
    obtain ⟨ds2, r3, hl, hp⟩ := M.bind_eq_ok hk
    obtain ⟨hds, hr⟩ := M.pure_eq_ok hp
    subst hr
    exact ⟨d, r2, ds2, hds.symm, hd, hl, parseDataRecord_ok_inv hd⟩

/-- Witness for claim C4: a data-loop position holding a declarations-block
header (none of the three data variants, not the end marker) satisfies the
hypotheses and makes the loop fail with `unexpectedObjectType`. -/
theorem c4_data_iteration_witness :
    (ObjectHeader.tryParseEnd8 ObjectType.objectGroupData [8]).1 = false ∧
    ObjectHeader.parse [8] = .ok (⟨ObjectType.objectGroupDeclaration, false⟩, []) ∧
    parseDataLoop 1 [8] = .error ParseError.unexpectedObjectType :=
  ⟨by decide, rfl,
   (c4_data_iteration 0 [8] (by decide)).1 ⟨ObjectType.objectGroupDeclaration, false⟩ []
     rfl (by decide) (by decide) (by decide)⟩

end OneNote

namespace OneNote

/-- Claim C5: after the declarations list, the decoder reads exactly one
header to classify what follows: a metadata-block header leads to metadata
entries decoded until the metadata end marker and then one further header
that must declare the data block (`unexpectedObjectType` otherwise); a
data-block header proceeds directly with an empty metadata sequence and no
extra header consumed; any other header type in that position (for example
a data-excluded record header) fails with `unexpectedObjectType`. -/
theorem c5_metadata_classification (fuel : Nat) (s r1 : List Nat)
    (ds : List ObjectGroupDeclaration) (header : ObjectHeader) (r2 : List Nat)
    (hds : parseObjectGroupDeclarations fuel s = .ok (ds, r1))
    (hh : ObjectHeader.parse r1 = .ok (header, r2)) :
    (header.objectType = ObjectType.objectGroupData →
       parseObjectGroup fuel s = parseGroupTail fuel ds [] r2) ∧
    (header.objectType = ObjectType.objectGroupMetadataBlock →
       ∀ md r3 header2 r4, parseMetadataLoop fuel r2 = .ok (md, r3) →
         ObjectHeader.parse r3 = .ok (header2, r4) →
         (header2.objectType = ObjectType.objectGroupData →
            parseObjectGroup fuel s = parseGroupTail fuel ds md r4) ∧
         (header2.objectType ≠ ObjectType.objectGroupData →
            parseObjectGroup fuel s = .error ParseError.unexpectedObjectType)) ∧
    (header.objectType ≠ ObjectType.objectGroupMetadataBlock →
     header.objectType ≠ ObjectType.objectGroupData →
       parseObjectGroup fuel s = .error ParseError.unexpectedObjectType) := by
  refine ⟨?_, ?_, ?_⟩
  · intro hd
    exact parseObjectGroup_direct fuel hds hh hd
  · intro hmb md r3 header2 r4 hml hh2
    exact parseObjectGroup_meta fuel hds hh hmb hml hh2
  · intro h1 h2
    exact parseObjectGroup_other fuel hds hh h1 h2

/-- Witness for claim C5: the specification's concrete scenario of a
data-excluded record header arriving right after the declarations list (the
data-block header never sent) satisfies the hypotheses, and the decode
fails with `unexpectedObjectType`. -/
theorem c5_metadata_classification_witness :
    parseObjectGroupDeclarations 4 [8, 11, 32] = .ok ([], [32]) ∧
    ObjectHeader.parse [32] = .ok (⟨ObjectType.objectGroupDataExcluded, false⟩, []) ∧
    parseObjectGroup 4 [8, 11, 32] = .error ParseError.unexpectedObjectType :=
  ⟨rfl, rfl,
   (c5_metadata_classification 4 [8, 11, 32] [32] [] ⟨ObjectType.objectGroupDataExcluded, false⟩ []
     rfl rfl).2.2 (by decide) (by decide)⟩

/-- Claim C6: decoding fails with `unexpectedObjectType` unless the very
first header declares the declarations block, and, after the data list's
end marker, unless a final end marker whose enclosing type is the outer
data-element envelope follows; when both boundary checks pass the
assembled object group is returned. -/
theorem c6_boundary_checks (fuel : Nat) :
    (∀ s header r1, ObjectHeader.parse s = .ok (header, r1) →
       header.objectType ≠ ObjectType.objectGroupDeclaration →
       parseObjectGroupDeclarations fuel s = .error ParseError.unexpectedObjectType ∧
       parseObjectGroup fuel s = .error ParseError.unexpectedObjectType) ∧
    (∀ ds md r4 objs r5 et r6,
       parseDataLoop fuel r4 = .ok (objs, r5) →
       ObjectHeader.parseEnd8 r5 = .ok (et, r6) →
       (et ≠ ObjectType.dataElement →
          parseGroupTail fuel ds md r4 = .error ParseError.unexpectedObjectType) ∧
       (et = ObjectType.dataElement →
          parseGroupTail fuel ds md r4 =
            .ok (DataElementValue.ObjectGroup ⟨ds, md, objs⟩, r6))) ∧
    (∀ s ds r1 header r2 objs r5 et r6,
       parseObjectGroupDeclarations fuel s = .ok (ds, r1) →
       ObjectHeader.parse r1 = .ok (header, r2) →
       header.objectType = ObjectType.objectGroupData →
       parseDataLoop fuel r2 = .ok (objs, r5) →
       ObjectHeader.parseEnd8 r5 = .ok (et, r6) →
       et = ObjectType.dataElement →
       parseObjectGroup fuel s =
         .ok (DataElementValue.ObjectGroup ⟨ds, [], objs⟩, r6)) := by
  refine ⟨?_, ?_, ?_⟩
  · intro s header r1 hh hne
    have h1 := parseObjectGroupDeclarations_bad_header fuel hh hne
    exact ⟨h1, parseObjectGroup_decls_error fuel h1⟩
  · intro ds md r4 objs r5 et r6 hdl hend
    have h1 := parseGroupTail_result fuel ds md hdl hend
    exact ⟨h1.2, h1.1⟩
  · intro s ds r1 header r2 objs r5 et r6 hds hh hd hdl hend het
    rw [parseObjectGroup_direct fuel hds hh hd]
    exact (parseGroupTail_result fuel ds [] hdl hend).1 het

/-- Witness for claim C6: a stream whose first header declares the data
block instead of the declarations block satisfies the hypotheses and fails
with `unexpectedObjectType`; the five-byte well-formed group exercises the
success conjunct end to end. -/
theorem c6_boundary_checks_witness :
    ObjectHeader.parse [20] = .ok (⟨ObjectType.objectGroupData, false⟩, []) ∧
    parseObjectGroup 2 [20] = .error ParseError.unexpectedObjectType ∧
    parseObjectGroup 2 [8, 11, 20, 23, 7] =
      .ok (DataElementValue.ObjectGroup ⟨[], [], []⟩, []) :=
  ⟨rfl,
   ((c6_boundary_checks 2).1 [20] ⟨ObjectType.objectGroupData, false⟩ [] rfl (by decide)).2,
   (c6_boundary_checks 2).2.2 [8, 11, 20, 23, 7] [] [20, 23, 7]
     ⟨ObjectType.objectGroupData, false⟩ [23, 7] [] [7] ObjectType.dataElement []
     rfl rfl rfl rfl rfl rfl⟩

/-- Claim C1 counterexample: a well-formed stream with zero declarations
and one metadata entry decodes successfully, so a successful decode can
return a metadata sequence that is neither empty nor of the same length as
the declaration sequence. -/
theorem c1_counterexample :
    parseObjectGroupBytes c1Input =
      .ok (DataElementValue.ObjectGroup ⟨[], [⟨ObjectChangeFrequency.Frequent⟩], []⟩, []) ∧
    ([⟨ObjectChangeFrequency.Frequent⟩] : List ObjectGroupMetadata) ≠ [] ∧
    ([⟨ObjectChangeFrequency.Frequent⟩] : List ObjectGroupMetadata).length ≠
      ([] : List ObjectGroupDeclaration).length :=
  ⟨rfl, by decide, by decide⟩

/-- Claim C1 amended: the decoder does not check the metadata count against
the declaration count (a successful decode may return a non-empty metadata
sequence whose length differs from the declaration count, as the
counterexample shows); what the decoder does guarantee is one direction
only: whenever the header following the declarations block already declares
the data block, the returned metadata sequence is empty.  The converse is
not claimed: an empty metadata sequence can also arise from a metadata
block containing zero entries. -/
theorem c1_metadata_unchecked (fuel : Nat) (s r1 : List Nat)
    (ds : List ObjectGroupDeclaration) (header : ObjectHeader) (r2 : List Nat)
    (hds : parseObjectGroupDeclarations fuel s = .ok (ds, r1))
    (hh : ObjectHeader.parse r1 = .ok (header, r2))
    (hd : header.objectType = ObjectType.objectGroupData) :
    ∀ g rest, parseObjectGroup fuel s = .ok (g, rest) →
      ∃ og, g = DataElementValue.ObjectGroup og ∧ og.metadata = [] ∧ og.declarations = ds := by
  intro g rest hrun
  rw [parseObjectGroup_direct fuel hds hh hd] at hrun
  unfold parseGroupTail at hrun
  obtain ⟨objs, r5, hdl, h2⟩ := M.bind_eq_ok hrun
  obtain ⟨et, r6, hend, h3⟩ := M.bind_eq_ok h2
  split_ifs at h3 with hc
  · obtain ⟨hg, hr⟩ := M.pure_eq_ok h3
    exact ⟨⟨ds, [], objs⟩, hg.symm, rfl, rfl⟩
  · simp [M.fail] at h3

/-- Witness for the amended claim C1: the five-byte well-formed group takes
the direct data path and its decoded metadata sequence is empty. -/
theorem c1_metadata_unchecked_witness :
    parseObjectGroupDeclarations 2 [8, 11, 20, 23, 7] = .ok ([], [20, 23, 7]) ∧
    ObjectHeader.parse [20, 23, 7] = .ok (⟨ObjectType.objectGroupData, false⟩, [23, 7]) ∧
    parseObjectGroup 2 [8, 11, 20, 23, 7] =
      .ok (DataElementValue.ObjectGroup ⟨[], [], []⟩, []) ∧
    (∃ og, DataElementValue.ObjectGroup (⟨[], [], []⟩ : ObjectGroup) =
       DataElementValue.ObjectGroup og ∧ og.metadata = [] ∧ og.declarations = []) :=
  ⟨rfl, rfl, rfl,
   c1_metadata_unchecked 2 [8, 11, 20, 23, 7] [20, 23, 7] [] ⟨ObjectType.objectGroupData, false⟩
     [23, 7] rfl rfl rfl (DataElementValue.ObjectGroup ⟨[], [], []⟩) [] rfl⟩

/-- Witness for claim C2: at a cursor holding the declarations end marker,
the lookahead for the declarations block consumes exactly that byte and
reports a match. -/
theorem c2_end_marker_lookahead_atomic_witness :
    (∃ r, ([11] : List Nat) = ObjectType.objectGroupDeclaration.endByte :: r ∧
       ObjectHeader.tryParseEnd8 ObjectType.objectGroupDeclaration [11] = (true, r)) ∨
    ObjectHeader.tryParseEnd8 ObjectType.objectGroupDeclaration [11] = (false, [11]) :=
  c2_end_marker_lookahead_atomic ObjectType.objectGroupDeclaration [11]

/-- Witness for claim C10: the Debug rendering of a concrete BlobReference
record carries the ObjectExcluded label, and a concrete four-byte payload
is rendered as its byte count. -/
theorem c10_debug_blobreference_label_witness :
    (ObjectGroupData.BlobReference [] [] ⟨List.replicate 16 0, 0⟩).fmtDebug.name =
      "ObjectExcluded" ∧
    ∃ g c, (ObjectGroupData.Object [] [] [170, 187, 204, 221]).fmtDebug.fields =
      [("group", g), ("cells", c), ("data", toString (4 : Nat) ++ " bytes")] :=
  ⟨(c10_debug_blobreference_label.1 [] [] ⟨List.replicate 16 0, 0⟩ 0).1,
   c10_debug_blobreference_label.2 [] [] [170, 187, 204, 221]⟩

end OneNote

namespace OneNote

/-- Claim C9: for every object space whose content root and metadata root
are both present and both resolve to objects in the space, parse_section
returns a section whose display name is a copy of the metadata node's
display name (none when the metadata node has none) and whose page series
contains exactly one parsed page series per page-series identifier listed
by the content node, in the same order; when a root or its object is
missing, parse_section aborts and returns no section. -/
theorem c9_parse_section {P : Type} (env : SectionEnv P) (space : ObjectSpace)
    (store : OneStore) (cid mid : ExGuid) (cobj mobj : StoreObject)
    (hc : space.content_root = some cid) (hm : space.metadata_root = some mid)
    (hco : space.get_object cid = some cobj) (hmo : space.get_object mid = some mobj) :
    parse_section env space store =
      some ⟨(env.sectionMetadataParse mobj).display_name,
            (env.sectionNodeParse cobj).page_series_ids.map fun i =>
              env.parsePageSeries i space store⟩ ∧
    (∀ space2 : ObjectSpace,
       (space2.content_root = none ∨ space2.metadata_root = none ∨
        (∃ cid2, space2.content_root = some cid2 ∧ space2.get_object cid2 = none) ∨
        (∃ mid2, space2.metadata_root = some mid2 ∧ space2.get_object mid2 = none)) →
       parse_section env space2 store = none) := by
  constructor
  · unfold parse_section parse_metadata parse_content
    simp only [hm, hmo, hc, hco]
  · intro space2 habs
    rcases habs with h | h | ⟨cid2, h1, h2⟩ | ⟨mid2, h1, h2⟩
    · have hpc : parse_content env space2 = none := by
        unfold parse_content
        rw [h]
      unfold parse_section
      rw [hpc]
      cases parse_metadata env space2 <;> rfl
    · have hpm : parse_metadata env space2 = none := by
        unfold parse_metadata
        rw [h]
      unfold parse_section
      rw [hpm]
    · have hpc : parse_content env space2 = none := by
        unfold parse_content
        simp only [h1, h2]
      unfold parse_section
      rw [hpc]
      cases parse_metadata env space2 <;> rfl
    · have hpm : parse_metadata env space2 = none := by
        unfold parse_metadata
        simp only [h1, h2]
      unfold parse_section
      rw [hpm]

/-- Witness for claim C9: in the concrete scenario the section carries the
metadata display name and one parsed page series, and a space with no
content root yields no section. -/
theorem c9_parse_section_witness :
    parse_section c9Env c9Space c9Store = some ⟨some "Notes", [7]⟩ ∧
    parse_section c9Env ⟨none, none, []⟩ c9Store = none :=
  ⟨(c9_parse_section c9Env c9Space c9Store c9Guid c9Guid c9Obj c9Obj rfl rfl rfl rfl).1,
   (c9_parse_section c9Env c9Space c9Store c9Guid c9Guid c9Obj c9Obj rfl rfl rfl rfl).2
     ⟨none, none, []⟩ (Or.inl rfl)⟩

end OneNote

namespace OneNote

/-- Sanity check matching the specification's concrete scenario: the sample
buffer decodes to exactly one object declaration, no metadata, and one
inline data object whose payload is the four bytes AA BB CC DD. -/
theorem sampleInput_decodes :
    parseObjectGroupBytes sampleInput =
      .ok (DataElementValue.ObjectGroup
        ⟨[ObjectGroupDeclaration.Object
            ⟨[1, 0, 0, 0, 0, 0, 0, 0, 0, 0, 0, 0, 0, 0, 0, 0], 1⟩ 0 4 0 0],
         [],
         [ObjectGroupData.Object [] [] [170, 187, 204, 221]]⟩, []) := rfl

end OneNote
